import Mathlib

/-!
Verification of the sip binding-code generator's argument-parser and
virtual-catcher generation logic, shallowly embedded from
`sipbuild/generator/outputs/code/` (the `Backend` class of
`backends/backend.py`, `argument_parser.py`, `code.py`) and
`sipbuild/generator/build_system_extension.py`.

Python enum classes from `sipbuild.generator.specification` are embedded as
Lean inductives; the specification-tree objects (`Argument`, `Overload`,
`Ctor`, `WrappedClass`-as-scope) are embedded as structures carrying exactly
the fields the embedded functions read.  Text written to the source-file
writer `sf` is accumulated as `String`s; a Python exception escaping a
generator function is embedded as `Except GenErr`.
-/

/-- The kinds of argument type (`specification.ArgumentType`). -/
inductive ArgumentType where
  | ascii_string | latin1_string | utf8_string
  | sstring | ustring | string_ | wstring
  | enum_ | bool_ | cbool
  | int_ | uint | size | cint
  | byte_ | sbyte | ubyte
  | short_ | ushort | long_ | ulong | longlong | ulonglong
  | struct_ | union_ | void_ | capsule
  | float_ | cfloat | double_ | cdouble
  | class_ | mapped
  | pyobject | pytuple | pylist | pydict | pyslice | pytype
  | pycallable | pybuffer | pyenum | ellipsis | ssize
  deriving DecidableEq, Repr

/-- Ownership-transfer modes (`specification.Transfer`). -/
inductive Transfer where
  | none_ | transfer | transfer_back | transfer_this
  deriving DecidableEq, Repr

/-- C-array pairing convention (`specification.ArrayArgument`). -/
inductive ArrayArgument where
  | none_ | array | array_size
  deriving DecidableEq, Repr

/-- Keyword-argument support of a callable (`specification.KwArgs`). -/
inductive KwArgs where
  | none_ | all | optional_
  deriving DecidableEq, Repr

/-- C++ access specifiers (`specification.AccessSpecifier`). -/
inductive AccessSpecifier where
  | public_ | protected_ | private_
  deriving DecidableEq, Repr

/-- Modelled from the spec: the Python slot kinds (`specification.PySlot`,
whose module is not among the provided sources).  Only the slots the embedded
code distinguishes are carried: `SETATTR`, a representative binary number
slot, a representative multi-argument slot and a representative unary slot. -/
inductive PySlot where
  | setattr_ | add_slot | mul_slot | call_slot | neg_slot | repr_slot
  deriving DecidableEq, Repr

/-- Modelled from the spec: `python_slots.is_number_slot` (module
`python_slots` is not among the provided sources); true exactly for the
binary-number-operator slots, and in particular false when the overload has
no slot at all. -/
def is_number_slot : Option PySlot → Bool
  | some .add_slot => true
  | some .mul_slot => true
  | _ => false

/-- A Python exception escaping a code-generation function. -/
inductive GenErr where
  | nameError (name : String)
  | userException (msg : String)
  | syntaxError (msg : String)
  deriving DecidableEq, Repr

/-- One argument of a default constructor's C++ signature, as read by
`_call_default_ctor` in `code.py`.  The two `*_text` fields model the output
of the formatters `fmt_argument_as_cpp_type` and `fmt_enum_as_cpp_type`
(the `outputs.formatters` modules are not among the provided sources). -/
structure CtorArg where
  type : ArgumentType
  nr_derefs : Nat
  is_reference : Bool
  has_default : Bool
  cpp_type_text : String
  enum_cpp_text : String
  deriving DecidableEq, Repr

/-- A constructor (`specification.Constructor`), reduced to the fields read by
the embedded functions: its access specifier, its C++ signature (`none` when
the ctor has no C++ signature) and its keyword-argument mode. -/
structure Ctor where
  access_specifier : AccessSpecifier
  cpp_signature : Option (List CtorArg)
  kw_args : KwArgs
  deriving DecidableEq, Repr

/-- The definition object an argument's type refers back to
(`Argument.definition`: a `WrappedClass`, `MappedType`, `WrappedEnum` or
capsule name, flattened into the fields the embedded functions read).  The
`*_text` fields model formatter output for the enum branch of `_cast_zero`
(the formatters are not among the provided sources). -/
structure Definition where
  convert_to_type_code : Option String
  no_release : Bool
  needs_user_state : Bool
  fq_cpp_name : Option String
  instance_code : Option String
  default_ctor : Option Ctor
  iface_fq_cpp_name : String
  as_cpp : String
  enum_members : List String
  enum_is_scoped : Bool
  enum_scope_text : Option String
  enum_cpp_text : String
  deriving DecidableEq, Repr

/-- One parameter or return value (`specification.Argument`), with the fields
read by the embedded functions.  `derefs` records constness at each
pointer-indirection level, exactly as in the source.  `plain_cpp_text` models
the output of `fmt_argument_as_cpp_type(..., plain=True, no_derefs=True)`
(the formatters are not among the provided sources). -/
structure Argument where
  type : ArgumentType
  derefs : List Bool
  is_reference : Bool
  is_const : Bool
  is_in : Bool
  is_out : Bool
  transfer : Transfer
  array : ArrayArgument
  default_value : Option String
  name : Option String
  get_wrapper : Bool
  key : Option Int
  disallow_none : Bool
  allow_none : Bool
  is_constrained : Bool
  defn : Definition
  plain_cpp_text : String
  deriving DecidableEq, Repr

/-- A callable signature (`specification.Signature`): its argument list and
optional result. -/
structure Signature where
  args : List Argument
  result : Option Argument
  deriving DecidableEq, Repr

/-- An overload (`specification.Overload` together with the fields of its
`common` member that the embedded functions read). -/
structure Overload where
  py_slot : Option PySlot
  allow_keyword_args : Bool
  kw_args : KwArgs
  is_static : Bool
  is_const : Bool
  access_is_really_protected : Bool
  is_abstract : Bool
  is_delattr : Bool
  virtual_call_code : Option String
  cpp_signature : Signature
  new_thread : Bool
  deriving DecidableEq, Repr

/-- A class used as the scope of an overload (`WrappedClass`), reduced to the
fields `g_arg_parser` reads. -/
structure Scope where
  is_namespace : Bool
  has_shadow : Bool
  py_name : String
  fq_cpp_name_word : String
  deriving DecidableEq, Repr

/-- Python tuple comparison `abi >= v` for two-component version tuples. -/
def abi_ge (abi v : Nat × Nat) : Bool :=
  if abi.1 = v.1 then decide (v.2 ≤ abi.2) else decide (v.1 < abi.1)

/-- `Backend.cached_name_ref` of `backends/backend.py` (the ABI v14 backend):
a cached name is referenced by its literal text in double quotes. -/
def cached_name_ref (name : String) : String :=
  "\"" ++ name ++ "\""

/-- `_get_subformat_char` of `backends/backend.py` (identical to the copy in
`argument_parser.py`), split into the flag accumulation and `chr(ord('0') +
flags)`.  The flag accumulation follows the source statement by statement. -/
def subformat_flags (arg : Argument) : Nat :=
  let flags : Nat := 0
  let flags := if arg.transfer = Transfer.transfer then flags ||| 0x02 else flags
  let flags := if arg.transfer = Transfer.transfer_back then flags ||| 0x04 else flags
  if arg.type = ArgumentType.class_ ∨ arg.type = ArgumentType.mapped then
    let flags := if arg.derefs.length = 0 ∨ arg.disallow_none then flags ||| 0x01 else flags
    let flags := if arg.transfer = Transfer.transfer_this then flags ||| 0x10 else flags
    let flags :=
      if arg.is_constrained ∨ (arg.type = ArgumentType.class_ ∧ arg.defn.convert_to_type_code = none)
        then flags ||| 0x08 else flags
    flags
  else
    flags

/-- `_get_subformat_char`: the sub-format character appended after `J` or `P`
in the argument-parser format string. -/
def get_subformat_char (arg : Argument) : Char :=
  Char.ofNat (48 + subformat_flags arg)

/-- The flag byte as the claim describes it: one addend per named flag bit,
the last three bits guarded by the argument being of class or mapped-type
kind. -/
def subformat_flags_claim (arg : Argument) : Nat :=
  (if arg.transfer = Transfer.transfer then 2 else 0) +
  (if arg.transfer = Transfer.transfer_back then 4 else 0) +
  (if (arg.type = ArgumentType.class_ ∨ arg.type = ArgumentType.mapped) ∧
      (arg.derefs.length = 0 ∨ arg.disallow_none) then 1 else 0) +
  (if (arg.type = ArgumentType.class_ ∨ arg.type = ArgumentType.mapped) ∧
      arg.transfer = Transfer.transfer_this then 16 else 0) +
  (if (arg.type = ArgumentType.class_ ∨ arg.type = ArgumentType.mapped) ∧
      (arg.is_constrained ∨ (arg.type = ArgumentType.class_ ∧ arg.defn.convert_to_type_code = none))
    then 8 else 0)

/-- C1: for class, mapped-type and PyObject arguments the sub-format
character is `chr('0' + flags)` with exactly the claimed bit layout: 0x02
transfer, 0x04 transfer-back, and - only for class/mapped-type arguments -
0x01 disallow-none, 0x10 transfer-this, 0x08 constrained-or-unconvertible;
no other bits are ever set (flags < 32), and for PyObject arguments only the
two transfer bits can occur. -/
theorem subformat_char_bit_layout (arg : Argument)
    (h : arg.type = ArgumentType.class_ ∨ arg.type = ArgumentType.mapped ∨
        arg.type = ArgumentType.pyobject) :
    get_subformat_char arg = Char.ofNat (48 + subformat_flags_claim arg) ∧
    subformat_flags_claim arg < 32 ∧
    (arg.type = ArgumentType.pyobject →
      subformat_flags_claim arg =
        (if arg.transfer = Transfer.transfer then 2 else 0) +
        (if arg.transfer = Transfer.transfer_back then 4 else 0)) := by
  have hflags : subformat_flags arg = subformat_flags_claim arg := by
    unfold subformat_flags subformat_flags_claim
    rcases arg with ⟨ty, derefs, _, _, _, _, tr, _, _, _, _, _, dn, _, ic, defn, _⟩
    simp only
    cases tr <;> by_cases hcm : ty = ArgumentType.class_ ∨ ty = ArgumentType.mapped <;>
      simp [hcm] <;> split_ifs <;> simp_all
  refine ⟨by simp [get_subformat_char, hflags], ?_, ?_⟩
  · unfold subformat_flags_claim
    split_ifs <;> omega
  · intro hpy
    have hne : ¬(arg.type = ArgumentType.class_ ∨ arg.type = ArgumentType.mapped) := by
      simp [hpy]
    unfold subformat_flags_claim
    simp [hne]

/-- Witness for C1 at a concrete class-typed argument carrying
`/TransferThis/`, a by-value (zero-deref) type and no conversion code: flags
are 0x10 + 0x01 + 0x08 = 0x19 = 25, so the character is `'I'` (" 48+25=73 "). -/
theorem subformat_char_bit_layout_witness :
    (ArgumentType.class_ = ArgumentType.class_ ∨
        ArgumentType.class_ = ArgumentType.mapped ∨
        ArgumentType.class_ = ArgumentType.pyobject) ∧
    get_subformat_char
        ⟨ArgumentType.class_, [], false, false, true, false, Transfer.transfer_this,
          ArrayArgument.none_, none, none, false, none, false, false, false,
          ⟨none, false, false, none, none, none, "", "", [], false, none, ""⟩, ""⟩ =
      Char.ofNat 73 := by
  constructor
  · exact Or.inl rfl
  · have h := subformat_char_bit_layout
      ⟨ArgumentType.class_, [], false, false, true, false, Transfer.transfer_this,
        ArrayArgument.none_, none, none, false, none, false, false, false,
        ⟨none, false, false, none, none, none, "", "", [], false, none, ""⟩, ""⟩
      (Or.inl rfl)
    rw [h.1]
    decide

/-- The per-argument format character(s) of `Backend.g_arg_parser`
(`backends/backend.py`, the type dispatch chain).  The v14 `Backend`'s
`abi_has_working_char_conversion` and `abi_supports_array` both return
`True` and are inlined as such.  The branches for the encoded-string and
plain-string kinds reference the name `_is_string`, which is neither defined
in nor imported into `backends/backend.py`, so reaching them raises a Python
`NameError`. -/
def arg_format_char (arg : Argument) : Except GenErr String :=
  match arg.type with
  | .ascii_string | .latin1_string | .utf8_string => throw (GenErr.nameError "_is_string")
  | .sstring | .ustring | .string_ =>
      if arg.array = ArrayArgument.array then pure "k" else throw (GenErr.nameError "_is_string")
  | .wstring =>
      if arg.array = ArrayArgument.array then pure "K" else throw (GenErr.nameError "_is_string")
  | .enum_ =>
      pure (if arg.defn.fq_cpp_name = none then "e" else if arg.is_constrained then "XE" else "E")
  | .bool_ => pure "b"
  | .cbool => pure "Xb"
  | .int_ => pure (if arg.array = ArrayArgument.array_size then "" else "i")
  | .uint => pure (if arg.array = ArrayArgument.array_size then "" else "u")
  | .size => pure (if arg.array = ArrayArgument.array_size then "" else "=")
  | .cint => pure "Xi"
  | .byte_ => pure (if arg.array = ArrayArgument.array_size then "" else "I")
  | .sbyte => pure (if arg.array = ArrayArgument.array_size then "" else "L")
  | .ubyte => pure (if arg.array = ArrayArgument.array_size then "" else "M")
  | .short_ => pure (if arg.array = ArrayArgument.array_size then "" else "h")
  | .ushort => pure (if arg.array = ArrayArgument.array_size then "" else "t")
  | .long_ => pure (if arg.array = ArrayArgument.array_size then "" else "l")
  | .ulong => pure (if arg.array = ArrayArgument.array_size then "" else "m")
  | .longlong => pure (if arg.array = ArrayArgument.array_size then "" else "n")
  | .ulonglong => pure (if arg.array = ArrayArgument.array_size then "" else "o")
  | .struct_ | .union_ | .void_ => pure "v"
  | .capsule => pure "z"
  | .float_ => pure "f"
  | .cfloat => pure "Xf"
  | .double_ => pure "d"
  | .cdouble => pure "Xd"
  | .class_ | .mapped =>
      if arg.array = ArrayArgument.array then
        pure (if arg.type = ArgumentType.class_ then ">" else "r")
      else
        pure (String.push "J" (get_subformat_char arg))
  | .pyobject => pure (String.push "P" (get_subformat_char arg))
  | .pytuple | .pylist | .pydict | .pyslice | .pytype =>
      pure (if arg.allow_none then "N" else "T")
  | .pycallable => pure (if arg.allow_none then "H" else "F")
  | .pybuffer => pure (if arg.allow_none then "$" else "!")
  | .pyenum => pure (if arg.allow_none then "^" else "&")
  | .ellipsis => pure "W"
  | .ssize => pure ""

/-- One loop iteration of the format-string construction in `g_arg_parser`:
skip non-input arguments, insert the `|` optional-arguments boundary the
first time a defaulted argument is reached, prepend the `@` get-wrapper /
keep-reference character, then the argument's own format character(s).
Returns the contribution and the updated `optional_args` flag. -/
def arg_format_piece (arg : Argument) (optional_args : Bool) :
    Except GenErr (String × Bool) :=
  if arg.is_in = false then pure ("", optional_args)
  else do
    let bar := if arg.default_value ≠ none ∧ optional_args = false then "|" else ""
    let optional_args' := optional_args || arg.default_value.isSome
    let wrapper :=
      if arg.get_wrapper then "@"
      else if arg.key ≠ none ∧
          ¬((arg.type = ArgumentType.ascii_string ∨ arg.type = ArgumentType.latin1_string ∨
              arg.type = ArgumentType.utf8_string) ∧ arg.derefs.length = 1)
        then "@" else ""
    let c ← arg_format_char arg
    pure (bar ++ wrapper ++ c, optional_args')

/-- The format-string argument loop of `g_arg_parser`, folded left-to-right
over the Python-signature arguments. -/
def args_format : List Argument → Bool → Except GenErr String
  | [], _ => pure ""
  | a :: rest, opt => do
      let (s, opt') ← arg_format_piece a opt
      let s' ← args_format rest opt'
      pure (s ++ s')

/-- One entry of the generated `sipKwdList` table: the cached-name reference
when the argument is named and keyword-usable (all keyword arguments, or this
one has a default value), otherwise `SIP_NULLPTR`. -/
def kwd_entry (kw_args : KwArgs) (arg : Argument) : String :=
  match arg.name with
  | some n => if kw_args = KwArgs.all ∨ arg.default_value ≠ none then cached_name_ref n
              else "SIP_NULLPTR"
  | none => "SIP_NULLPTR"

/-- The generated `sipKwdList` table of `g_arg_parser`: written only when the
callable's keyword mode is not `NONE` and there is at least one input
argument, with one entry per input argument. -/
def kwd_list (kw_args : KwArgs) (args : List Argument) : Option (List String) :=
  if kw_args = KwArgs.none_ then none
  else
    let in_args := args.filter (fun a => a.is_in)
    if in_args = [] then none else some (in_args.map (kwd_entry kw_args))

/-- The `handle_self` computation of `g_arg_parser` (after the namespace
scope has already been discarded): for ABI v13 and later static methods use
self for the type object. -/
def handle_self_of (target_abi : Nat × Nat) (scope : Option Scope)
    (overload : Option Overload) : Bool :=
  match overload with
  | none => false
  | some ov =>
      if abi_ge target_abi (13, 0) then scope.isSome && ov.py_slot.isNone
      else scope.isSome && ov.py_slot.isNone && !ov.is_static

/-- The components of the generated parser call that `g_arg_parser` emits:
the parsing primitive, the keyword-name table (if one is written), and the
format string together with its three sections (single-argument marker, self
section, per-argument section).  `format` is the emitted C string literal,
double quotes included. -/
structure ParserCall where
  parserFunction : String
  kwdList : Option (List String)
  singleFormat : String
  selfFormat : String
  argFormat : String
  format : String
  deriving DecidableEq, Repr

/-- `Backend.g_arg_parser` of `backends/backend.py`, reduced to the parser
call it generates (the local-variable declaration writes of
`_g_argument_variable` are modelled separately by `argument_variable`).
Faithful points: a namespace scope is treated as no scope; the keyword branch
is taken whenever the overload allows keyword arguments or a ctor is being
generated; for a target ABI before v14 an overload with an actual (non-`None`)
slot reaches the expression `is_multi_arg_slot(...)`, a name that is not
imported by `backends/backend.py`, raising a Python `NameError`. -/
def g_arg_parser_gen (target_abi : Nat × Nat) (scope0 : Option Scope)
    (py_signature : Signature) (ctor : Option Ctor) (overload : Option Overload) :
    Except GenErr ParserCall := do
  let scope := match scope0 with
    | some s => if s.is_namespace then none else some s
    | none => none
  let handle_self := handle_self_of target_abi scope overload
  let ctor_needs_self :=
    ctor.isSome && py_signature.args.any (fun a => decide (a.transfer = Transfer.transfer))
  let numberSlot := match overload with
    | some ov => is_number_slot ov.py_slot
    | none => false
  let setattrSlot := match overload with
    | some ov => decide (ov.py_slot = some PySlot.setattr_)
    | none => false
  let kwBranch := (match overload with
    | some ov => ov.allow_keyword_args
    | none => false) || ctor.isSome
  let pfks : Except GenErr (String × Option (List String) × Bool) :=
    if numberSlot then
      pure ("sipParsePair", none, false)
    else if setattrSlot then
      pure ((if (match overload with | some ov => ov.is_delattr | none => false) then
          "sipValue == SIP_NULLPTR && sipParsePair"
        else
          "sipValue != SIP_NULLPTR && sipParsePair"), none, false)
    else if kwBranch then
      let kw_args := match overload with
        | some ov => ov.kw_args
        | none => match ctor with
          | some c => c.kw_args
          | none => KwArgs.none_
      pure ("sipParseKwdArgs", kwd_list kw_args py_signature.args, false)
    else do
      let single ←
        if abi_ge target_abi (14, 0) then pure false
        else match overload with
          | none => pure false
          | some ov => match ov.py_slot with
            | none => pure false
            | some _ => throw (GenErr.nameError "is_multi_arg_slot")
      pure ("sipParseArgs", none, single)
  let (parser_function, kwdL, single_arg) ← pfks
  let selfStr :=
    if ctor_needs_self then "#"
    else if handle_self then
      match overload with
      | some ov => if ov.is_static then "C"
          else if ov.access_is_really_protected then "p" else "B"
      | none => ""
    else ""
  let singleStr := if single_arg then "1" else ""
  let argF ← args_format py_signature.args false
  pure { parserFunction := parser_function, kwdList := kwdL,
         singleFormat := singleStr, selfFormat := selfStr, argFormat := argF,
         format := "\"" ++ singleStr ++ selfStr ++ argF ++ "\"" }

/-- C3: for an overload that is not a Python slot, with a class
(non-namespace) scope, the generated parser consumes an implicit
receiver/self slot: its format string carries a self section (`C` for a
static method, `p` for a really-protected method, `B` otherwise) whenever
the target ABI is at least (13, 0); for earlier ABIs the self section is
present exactly for non-static overloads; and with no class scope the self
section is always empty. -/
theorem self_slot_consumption (target_abi : Nat × Nat) (s : Scope) (sig : Signature)
    (ov : Overload) (hslot : ov.py_slot = none) (hns : s.is_namespace = false) :
    (∀ r, g_arg_parser_gen target_abi (some s) sig none (some ov) = Except.ok r →
      ((abi_ge target_abi (13, 0) = true ∨ ov.is_static = false) →
          r.selfFormat = (if ov.is_static then "C"
            else if ov.access_is_really_protected then "p" else "B")) ∧
      (abi_ge target_abi (13, 0) = false → ov.is_static = true → r.selfFormat = "")) ∧
    (∀ r, g_arg_parser_gen target_abi none sig none (some ov) = Except.ok r →
      r.selfFormat = "") := by
  constructor
  · intro r hok
    unfold g_arg_parser_gen at hok
    simp [hns, hslot, is_number_slot, handle_self_of] at hok
    by_cases hkw : ov.allow_keyword_args = true <;>
      cases hargs : args_format sig.args false <;>
        simp [hkw, hargs] at hok
    · refine ⟨fun h => ?_, fun h1 h2 => ?_⟩
      · rw [← hok]; simp [h]
      · rw [← hok]; simp [h1, h2]
    · refine ⟨fun h => ?_, fun h1 h2 => ?_⟩
      · rw [← hok]; simp [h]
      · rw [← hok]; simp [h1, h2]
  · intro r hok
    unfold g_arg_parser_gen at hok
    simp [hslot, is_number_slot, handle_self_of] at hok
    by_cases hkw : ov.allow_keyword_args = true <;>
      cases hargs : args_format sig.args false <;>
        simp [hkw, hargs] at hok <;>
      rw [← hok]

/-- A concrete static overload with no slot, used to witness the self-slot
rule at ABI (13, 0). -/
def static_ov : Overload :=
  ⟨none, false, KwArgs.none_, true, false, false, false, false, none, ⟨[], none⟩, false⟩

/-- A concrete non-namespace class scope. -/
def k_scope : Scope := ⟨false, false, "K", "K"⟩

/-- Witness for C3: at ABI (13, 0) a static no-slot method with a class scope
consumes the type-object self slot (format section "C"). -/
theorem self_slot_consumption_witness :
    (⟨"sipParseArgs", none, "", "C", "", "\"C\""⟩ : ParserCall).selfFormat = "C" := by
  exact ((self_slot_consumption (13, 0) k_scope ⟨[], none⟩ static_ov rfl rfl).1
    ⟨"sipParseArgs", none, "", "C", "", "\"C\""⟩ rfl).1 (Or.inl (by decide))

/-- C4: a module-level function whose only argument is an input INT with no
default value and no annotations, not a slot, keywords not allowed, no scope:
the generated call uses `sipParseArgs` with format string exactly `"i"` - no
single-argument marker, no self section, no `|` boundary, and no keyword
table. -/
theorem module_function_int_format (a : Argument) (res : Option Argument) (ov : Overload)
    (ht : a.type = ArgumentType.int_) (hin : a.is_in = true)
    (hdef : a.default_value = none) (harr : a.array = ArrayArgument.none_)
    (hw : a.get_wrapper = false) (hk : a.key = none)
    (hslot : ov.py_slot = none) (hkw : ov.allow_keyword_args = false) :
    g_arg_parser_gen (14, 0) none ⟨[a], res⟩ none (some ov) =
      Except.ok ⟨"sipParseArgs", none, "", "", "i", "\"i\""⟩ := by
  unfold g_arg_parser_gen
  simp [hslot, hkw, is_number_slot, handle_self_of, args_format, arg_format_piece,
    arg_format_char, ht, hin, hdef, harr, hw, hk, abi_ge]
  rfl

/-- A concrete INT input argument with no annotations. -/
def plain_int_arg : Argument :=
  ⟨ArgumentType.int_, [], false, false, true, false, Transfer.none_, ArrayArgument.none_,
    none, none, false, none, false, false, false,
    ⟨none, false, false, none, none, none, "", "", [], false, none, ""⟩, "int"⟩

/-- Witness for C4 at the concrete argument `plain_int_arg` and a concrete
slotless overload. -/
theorem module_function_int_format_witness :
    g_arg_parser_gen (14, 0) none ⟨[plain_int_arg], none⟩ none
        (some ⟨none, false, KwArgs.none_, false, false, false, false, false, none,
          ⟨[plain_int_arg], none⟩, false⟩) =
      Except.ok ⟨"sipParseArgs", none, "", "", "i", "\"i\""⟩ :=
  module_function_int_format plain_int_arg none _ rfl rfl rfl rfl rfl rfl rfl rfl

/-- The constructor argument `incr` of the claimed scenario: an input INT
named "incr" with default value 1. -/
def incr_arg : Argument :=
  ⟨ArgumentType.int_, [], false, false, true, false, Transfer.none_, ArrayArgument.none_,
    some "1", some "incr", false, none, false, false, false,
    ⟨none, false, false, none, none, none, "", "", [], false, none, ""⟩, "int"⟩

/-- A public constructor taking only `incr_arg`, with all keyword arguments
enabled. -/
def incr_ctor : Ctor := ⟨AccessSpecifier.public_, some [], KwArgs.all⟩

/-- Counterexample for C5: for the constructor whose only argument is `incr`
(keyword-eligible, default 1), the generated `sipKwdList` table has exactly
ONE entry - the name reference for "incr" - and in particular is not the
claimed two-entry table ending in a NULL terminator.  The `|` boundary claim
does hold: the format string is exactly `"|i"`. -/
theorem ctor_kwd_table_counterexample :
    ∃ r, g_arg_parser_gen (14, 0) none ⟨[incr_arg], none⟩ (some incr_ctor) none =
        Except.ok r ∧
      r.kwdList = some [cached_name_ref "incr"] ∧
      (∀ l, r.kwdList = some l → l.length = 1) ∧
      r.kwdList ≠ some [cached_name_ref "incr", "SIP_NULLPTR"] ∧
      r.format = "\"|i\"" := by
  refine ⟨⟨"sipParseKwdArgs", some [cached_name_ref "incr"], "", "", "|i", "\"|i\""⟩,
    rfl, rfl, ?_, ?_, rfl⟩
  · intro l hl
    simp at hl
    simp [← hl]
  · simp [cached_name_ref]

/-- C5 as amended: for a constructor whose only argument is an input INT
named `n` with a default value, keyword-eligible (keyword mode not NONE),
without ownership-transfer or wrapper annotations, the generated keyword
table contains exactly one entry - the cached-name reference of `n` (no NULL
terminator) - and the format string is exactly `"|i"`: a single `|` boundary
immediately before the optional argument's format character. -/
theorem ctor_kwd_table_amended (n d : String) (a : Argument) (c : Ctor)
    (res : Option Argument)
    (ht : a.type = ArgumentType.int_) (hin : a.is_in = true)
    (hname : a.name = some n) (hdef : a.default_value = some d)
    (harr : a.array = ArrayArgument.none_) (hw : a.get_wrapper = false)
    (hk : a.key = none) (htr : a.transfer = Transfer.none_)
    (hkw : c.kw_args ≠ KwArgs.none_) :
    g_arg_parser_gen (14, 0) none ⟨[a], res⟩ (some c) none =
      Except.ok ⟨"sipParseKwdArgs", some [cached_name_ref n], "", "", "|i", "\"|i\""⟩ := by
  unfold g_arg_parser_gen
  simp [is_number_slot, handle_self_of, args_format, arg_format_piece, arg_format_char,
    kwd_list, kwd_entry, hkw, ht, hin, hname, hdef, harr, hw, hk, htr, abi_ge]
  rfl

/-- Witness for the amended C5 at the concrete `incr` constructor. -/
theorem ctor_kwd_table_amended_witness :
    g_arg_parser_gen (14, 0) none ⟨[incr_arg], none⟩ (some incr_ctor) none =
      Except.ok ⟨"sipParseKwdArgs", some [cached_name_ref "incr"], "", "", "|i", "\"|i\""⟩ :=
  ctor_kwd_table_amended "incr" "1" incr_arg incr_ctor none rfl rfl rfl rfl rfl rfl rfl rfl
    (by decide)

/-- `_cast_zero` of `code.py`: the zero expression of a result type, used by
`_default_instance_return` for non-class, non-mapped results. -/
def cast_zero (r : Argument) : String :=
  if r.type = ArgumentType.enum_ then
    if r.defn.enum_members = [] then
      "(" ++ r.defn.enum_cpp_text ++ ")0"
    else
      let scope :=
        if r.defn.enum_is_scoped then r.defn.enum_cpp_text
        else match r.defn.enum_scope_text with
          | some t => t
          | none => ""
      scope ++ "::" ++ r.defn.enum_members.headD ""
  else if r.type = ArgumentType.pyobject ∨ r.type = ArgumentType.pytuple ∨
      r.type = ArgumentType.pylist ∨ r.type = ArgumentType.pydict ∨
      r.type = ArgumentType.pycallable ∨ r.type = ArgumentType.pyslice ∨
      r.type = ArgumentType.pytype ∨ r.type = ArgumentType.pybuffer ∨
      r.type = ArgumentType.pyenum ∨ r.type = ArgumentType.ellipsis then
    "SIP_NULLPTR"
  else
    "0"

/-- The zero-valued actual for one argument of a default constructor
(`_call_default_ctor`'s per-argument chain). -/
def ctor_arg_zero (a : CtorArg) : String :=
  if a.type = ArgumentType.class_ ∧ 0 < a.nr_derefs ∧ a.is_reference = false then
    "static_cast<" ++ a.cpp_type_text ++ ">(0)"
  else if a.type = ArgumentType.enum_ then
    "static_cast<" ++ a.enum_cpp_text ++ ">(0)"
  else if a.type = ArgumentType.float_ ∨ a.type = ArgumentType.cfloat then "0.0F"
  else if a.type = ArgumentType.double_ ∨ a.type = ArgumentType.cdouble then "0.0"
  else if a.type = ArgumentType.uint ∨ a.type = ArgumentType.size then "0U"
  else if a.type = ArgumentType.long_ ∨ a.type = ArgumentType.longlong then "0L"
  else if a.type = ArgumentType.ulong ∨ a.type = ArgumentType.ulonglong then "0UL"
  else if (a.type = ArgumentType.ascii_string ∨ a.type = ArgumentType.latin1_string ∨
      a.type = ArgumentType.utf8_string ∨ a.type = ArgumentType.ustring ∨
      a.type = ArgumentType.sstring ∨ a.type = ArgumentType.string_) ∧
      a.nr_derefs = 0 then "\x27\\0\x27"
  else if a.type = ArgumentType.wstring ∧ a.nr_derefs = 0 then "L\x27\\0\x27"
  else "0"

/-- `_call_default_ctor` of `code.py`: the parenthesised actual-argument list
of a call to a default constructor, stopping at the first argument with a
default value. -/
def call_default_ctor (args : List CtorArg) : String :=
  "(" ++ String.intercalate ", "
      ((args.takeWhile (fun a => !a.has_default)).map ctor_arg_zero) ++ ")"

/-- `_default_instance_return` of `code.py`: the statement returning the
default instance of a type (typically on error).  For a by-value class result
with no `%InstanceCode` and no public default constructor with a C++
signature, generation fails with the fatal `UserException` naming the class. -/
def default_instance_return (result : Option Argument) : Except GenErr String :=
  match result with
  | none => pure "        return;\n"
  | some r =>
      let instance_code :=
        if r.derefs.length = 0 ∧ (r.type = ArgumentType.class_ ∨ r.type = ArgumentType.mapped)
          then r.defn.instance_code else none
      match instance_code with
      | some ic =>
          pure ("    \x7b\n        static " ++ r.plain_cpp_text ++
            " *sipCpp = SIP_NULLPTR;\n\n        if (!sipCpp)\n        \x7b\n" ++ ic ++
            "        \x7d\n\n        return *sipCpp;\n    \x7d\n")
      | none =>
          if r.type = ArgumentType.mapped ∧ r.derefs.length = 0 then
            pure ("        return " ++ (if r.is_reference then "*new " else "") ++
              r.plain_cpp_text ++ "()" ++ ";\n")
          else if r.type = ArgumentType.class_ ∧ r.derefs.length = 0 then
            match r.defn.default_ctor with
            | some ctor =>
                if ctor.access_specifier = AccessSpecifier.public_ then
                  match ctor.cpp_signature with
                  | some cargs =>
                      pure ("        return " ++ (if r.is_reference then "*new " else "") ++
                        r.plain_cpp_text ++ call_default_ctor cargs ++ ";\n")
                  | none =>
                      throw (GenErr.userException
                        (r.defn.iface_fq_cpp_name ++ " must have a default constructor"))
                else
                  throw (GenErr.userException
                    (r.defn.iface_fq_cpp_name ++ " must have a default constructor"))
            | none =>
                throw (GenErr.userException
                  (r.defn.iface_fq_cpp_name ++ " must have a default constructor"))
          else
            pure ("        return " ++ cast_zero r ++ ";\n")

/-- `_virtual_handler_call` of `code.py`, reduced to its control flow.  Its
keep-Python-reference checks read the name `backend`, which is neither a
parameter nor a local nor a module-level binding of `code.py` (the only
module-level import is the class `Backend`; the instance `backend` is a local
of `output_code`), so the first evaluation of `backend.keep_py_reference(...)`
raises a Python `NameError`.  By Python's short-circuit evaluation that
happens exactly when the (already normalised) result is not `None`, or
otherwise at the first out-marked argument. -/
def virtual_handler_call_gen (result : Option Argument) (args : List Argument) :
    Except GenErr Unit :=
  if result.isSome then throw (GenErr.nameError "backend")
  else if args.any (fun a => a.is_out) then throw (GenErr.nameError "backend")
  else pure ()

/-- The three shapes of the `if (!sipMeth)` branch of a generated virtual
catcher. -/
inductive NoMethBranch where
  | userCode | defaultInstance | cppCall
  deriving DecidableEq, Repr

/-- The branch selection of `_virtual_catcher` (`code.py`) for the
no-Python-override case: user-supplied `%VirtualCallCode` first, otherwise
the default-instance return for an abstract overload, otherwise a call to the
original C++ implementation. -/
def virtual_catcher_no_meth_branch (ov : Overload) : NoMethBranch :=
  if ov.virtual_call_code.isSome then NoMethBranch.userCode
  else if ov.is_abstract then NoMethBranch.defaultInstance
  else NoMethBranch.cppCall

/-- The class-name argument `_virtual_catcher` passes to `sipIsPyMethod`: the
cached name reference of the class for an abstract overload, `SIP_NULLPTR`
otherwise. -/
def catcher_class_name_ref (klass_py_name : String) (ov : Overload) : String :=
  if ov.is_abstract then cached_name_ref klass_py_name else "SIP_NULLPTR"

/-- The result normalisation at the top of `_virtual_catcher`: a plain `void`
result (no derefs) is treated as no result at all. -/
def catcher_result (sig : Signature) : Option Argument :=
  match sig.result with
  | some r =>
      if r.type = ArgumentType.void_ ∧ r.derefs.length = 0 then none else some r
  | none => none

/-- What a generated virtual catcher records: the class-name argument of the
`sipIsPyMethod` call, the shape of the no-override branch and that branch's
emitted text. -/
structure CatcherOut where
  classNameRef : String
  branch : NoMethBranch
  branchText : String
  deriving DecidableEq, Repr

/-- `_virtual_catcher` of `code.py`, reduced to the `sipIsPyMethod` call
shape and the no-override branch, followed - as in the source - by the
unconditional `_virtual_handler_call`. -/
def virtual_catcher_gen (klass_py_name : String) (ov : Overload) :
    Except GenErr CatcherOut := do
  let result := catcher_result ov.cpp_signature
  let classNameRef := catcher_class_name_ref klass_py_name ov
  let branch := virtual_catcher_no_meth_branch ov
  let branchText ← match branch with
    | NoMethBranch.userCode => pure (ov.virtual_call_code.getD "")
    | NoMethBranch.defaultInstance => default_instance_return result
    | NoMethBranch.cppCall => pure ""
  virtual_handler_call_gen result ov.cpp_signature.args
  pure ⟨classNameRef, branch, branchText⟩

/-- Modelled from the spec: the runtime helper `sipIsPyMethod` (the sip
runtime support library is not among the provided sources).  Per spec
section 4.5 the catcher, finding no bound Python override, "raises an
\"abstract method called\" runtime error (abstract case)"; the generated call
communicates abstractness by passing the class's cached name instead of
`SIP_NULLPTR`, so the runtime raises the error exactly when it receives a
real class name and finds no bound override. -/
def sip_is_py_method_raises (class_name_ref : String) (override_bound : Bool) : Bool :=
  !override_bound && (class_name_ref != "SIP_NULLPTR")

/-- A cached name reference is never the literal `SIP_NULLPTR`: it always
starts with a double-quote character. -/
theorem cached_name_ref_ne_nullptr (k : String) : cached_name_ref k ≠ "SIP_NULLPTR" := by
  intro h
  have h2 := congrArg (fun s => s.data.head?) h
  simp only [cached_name_ref] at h2
  rw [String.data_append, String.data_append] at h2
  simp at h2

/-- C2: for an abstract virtual overload with no user-supplied virtual-call
code, the generated catcher selects the default-instance-return shape for its
no-override branch, and - because it passes the real class name to
`sipIsPyMethod` - the runtime raises the "abstract method called" error in
exactly that branch. -/
theorem abstract_catcher_raises (k : String) (ov : Overload)
    (habs : ov.is_abstract = true) (hvcc : ov.virtual_call_code = none) :
    virtual_catcher_no_meth_branch ov = NoMethBranch.defaultInstance ∧
    sip_is_py_method_raises (catcher_class_name_ref k ov) false = true := by
  refine ⟨by simp [virtual_catcher_no_meth_branch, hvcc, habs], ?_⟩
  simp [sip_is_py_method_raises, catcher_class_name_ref, habs]
  exact cached_name_ref_ne_nullptr k

/-- Witness for C2 at a concrete abstract overload. -/
theorem abstract_catcher_raises_witness :
    virtual_catcher_no_meth_branch
        ⟨none, false, KwArgs.none_, false, false, false, true, false, none,
          ⟨[], some ⟨ArgumentType.void_, [], false, false, false, false, Transfer.none_,
            ArrayArgument.none_, none, none, false, none, false, false, false,
            ⟨none, false, false, none, none, none, "", "", [], false, none, ""⟩, "void"⟩⟩,
          false⟩ =
      NoMethBranch.defaultInstance ∧
    sip_is_py_method_raises (catcher_class_name_ref "Abstract"
        ⟨none, false, KwArgs.none_, false, false, false, true, false, none,
          ⟨[], some ⟨ArgumentType.void_, [], false, false, false, false, Transfer.none_,
            ArrayArgument.none_, none, none, false, none, false, false, false,
            ⟨none, false, false, none, none, none, "", "", [], false, none, ""⟩, "void"⟩⟩,
          false⟩) false = true := by
  exact abstract_catcher_raises "Abstract" _ rfl rfl

/-- C6: for a by-value wrapped-class result with no `%InstanceCode`, if the
class has no usable default constructor (none at all, or not public, or one
without a C++ signature), `_default_instance_return` raises the fatal
`UserException` whose message names the class and states it "must have a
default constructor". -/
theorem default_instance_return_requires_ctor (r : Argument)
    (hclass : r.type = ArgumentType.class_) (hval : r.derefs = [])
    (hic : r.defn.instance_code = none)
    (hbad : ∀ c, r.defn.default_ctor = some c →
      c.access_specifier ≠ AccessSpecifier.public_ ∨ c.cpp_signature = none) :
    default_instance_return (some r) =
      Except.error (GenErr.userException
        (r.defn.iface_fq_cpp_name ++ " must have a default constructor")) := by
  unfold default_instance_return
  simp [hclass, hval, hic]
  cases hctor : r.defn.default_ctor with
  | none => rfl
  | some c =>
      rcases hbad c hctor with hacc | hsig
      · simp [hacc]
        rfl
      · cases hpub : decide (c.access_specifier = AccessSpecifier.public_) <;>
          simp_all [hsig] <;> rfl

/-- Witness for C6: a by-value class result whose class has a protected
default constructor. -/
theorem default_instance_return_requires_ctor_witness :
    default_instance_return
        (some ⟨ArgumentType.class_, [], false, false, false, true, Transfer.none_,
          ArrayArgument.none_, none, none, false, none, false, false, false,
          ⟨none, false, false, none, none,
            some ⟨AccessSpecifier.protected_, some [], KwArgs.none_⟩,
            "NoDefault", "", [], false, none, ""⟩, "NoDefault"⟩) =
      Except.error (GenErr.userException "NoDefault must have a default constructor") := by
  exact default_instance_return_requires_ctor _ rfl rfl rfl
    (fun c hc => by
      simp at hc
      rw [← hc]
      exact Or.inl (by decide))

/-- C9: `_virtual_handler_call` reads the unbound name `backend`, so
generating the handler call raises a Python `NameError` whenever the
normalised result is present (every non-void result), and also for a
void result when some argument is out-marked; consequently virtual-catcher
generation cannot complete for any such overload. -/
theorem virtual_handler_call_name_error (result : Option Argument)
    (args : List Argument) (k : String) (ov : Overload) :
    (result.isSome = true →
      virtual_handler_call_gen result args = Except.error (GenErr.nameError "backend")) ∧
    (result = none → args.any (fun a => a.is_out) = true →
      virtual_handler_call_gen result args = Except.error (GenErr.nameError "backend")) ∧
    ((catcher_result ov.cpp_signature).isSome = true → ov.virtual_call_code.isSome = true →
      virtual_catcher_gen k ov = Except.error (GenErr.nameError "backend")) := by
  refine ⟨?_, ?_, ?_⟩
  · intro h
    simp [virtual_handler_call_gen, h]
    rfl
  · intro h hout
    simp [virtual_handler_call_gen, h, hout]
    rfl
  · intro hres hvcc
    unfold virtual_catcher_gen
    simp [virtual_catcher_no_meth_branch, hvcc, virtual_handler_call_gen, hres]
    rfl

/-- Witness for C9: an overload returning `int` (non-void result, no out
arguments, with virtual-call code so the branch emission succeeds) makes
catcher generation fail with the `NameError`. -/
theorem virtual_handler_call_name_error_witness :
    virtual_catcher_gen "K"
        ⟨none, false, KwArgs.none_, false, false, false, false, false, some "code",
          ⟨[], some plain_int_arg⟩, false⟩ =
      Except.error (GenErr.nameError "backend") := by
  exact (virtual_handler_call_name_error (some plain_int_arg) [] "K"
      ⟨none, false, KwArgs.none_, false, false, false, false, false, some "code",
        ⟨[], some plain_int_arg⟩, false⟩).2.2 rfl rfl

/-- The two backend families `Backend.factory` selects between. -/
inductive BackendKind where
  | current | legacy
  deriving DecidableEq, Repr

/-- The outcome of `from .legacy_backend import LegacyBackend` inside
`Backend.factory`: the module `backends/legacy_backend.py` does not parse -
line 657 reads `base_fields.append(self.get_class_flags(klass, py_debug)`
with an unbalanced opening parenthesis (and line 880 carries a stray closing
one) - so the import raises a Python `SyntaxError` instead of producing the
class. -/
def import_legacy_backend : Except GenErr Unit :=
  throw (GenErr.syntaxError "legacy_backend.py line 657: unbalanced parenthesis")

/-- `Backend.factory` of `backends/backend.py`: return the current-ABI
backend for a target ABI of at least (14, 0), otherwise import and return
`LegacyBackend` - an import which, for the sources as given, fails. -/
def backend_factory (target_abi : Nat × Nat) : Except GenErr BackendKind :=
  if abi_ge target_abi (14, 0) then pure BackendKind.current
  else do
    import_legacy_backend
    pure BackendKind.legacy

/-- C7 (documenting the code bug): the factory does return the current
backend for target ABI (14, 0) and the threshold comparison is as claimed,
but for any earlier target ABI - (13, 0) and (12, 8) evaluated here - it
raises the `SyntaxError` of the unparseable `legacy_backend.py` instead of
returning a `LegacyBackend`. -/
theorem backend_factory_syntax_error :
    backend_factory (14, 0) = Except.ok BackendKind.current ∧
    backend_factory (14, 5) = Except.ok BackendKind.current ∧
    backend_factory (13, 0) =
      Except.error (GenErr.syntaxError "legacy_backend.py line 657: unbalanced parenthesis") ∧
    backend_factory (12, 8) =
      Except.error (GenErr.syntaxError "legacy_backend.py line 657: unbalanced parenthesis") := by
  refine ⟨rfl, rfl, rfl, rfl⟩

/-- An annotation validator's failure signal
(`parser.InvalidAnnotation`, whose module is not among the provided sources):
it carries a message and the fallback value to `use`. -/
structure InvalidAnnot (α : Type) where
  message : String
  use : α
  deriving DecidableEq, Repr

/-- The parser manager's error channel (`pm.parser_error`, whose module is
not among the provided sources), modelled as an accumulating list of
(location, symbol, message) diagnostics. -/
structure ParserState where
  errors : List (String × String × String)
  deriving DecidableEq, Repr

/-- `pm.parser_error(p, symbol, msg)`: register one diagnostic and continue. -/
def parser_error (pm : ParserState) (p symbol msg : String) : ParserState :=
  ⟨pm.errors ++ [(p, symbol, msg)]⟩

/-- `BuildSystemExtension.parse_boolean_annotation`: return the validated
value; on `InvalidAnnotation` register a parser error at the location and
return the exception's `use` fallback.  The validator itself
(`validate_boolean`) is not among the provided sources, so its outcome is
taken as an input. -/
def parse_boolean_annot (validated : Except (InvalidAnnot Bool) Bool)
    (pm : ParserState) (p symbol : String) : Bool × ParserState :=
  match validated with
  | Except.ok v => (v, pm)
  | Except.error e => (e.use, parser_error pm p symbol e.message)

/-- `BuildSystemExtension.parse_integer_annotation`, same shape for the
integer validator. -/
def parse_integer_annot (validated : Except (InvalidAnnot Int) Int)
    (pm : ParserState) (p symbol : String) : Int × ParserState :=
  match validated with
  | Except.ok v => (v, pm)
  | Except.error e => (e.use, parser_error pm p symbol e.message)

/-- `BuildSystemExtension.parse_string_annotation`, same shape for the string
validator. -/
def parse_string_annot (validated : Except (InvalidAnnot String) String)
    (pm : ParserState) (p symbol : String) : String × ParserState :=
  match validated with
  | Except.ok v => (v, pm)
  | Except.error e => (e.use, parser_error pm p symbol e.message)

/-- `BuildSystemExtension.parse_string_list_annotation`, same shape for the
string-list validator. -/
def parse_string_list_annot (validated : Except (InvalidAnnot (List String)) (List String))
    (pm : ParserState) (p symbol : String) : List String × ParserState :=
  match validated with
  | Except.ok v => (v, pm)
  | Except.error e => (e.use, parser_error pm p symbol e.message)

/-- C8: for each of the four annotation kinds, the parse wrapper returns the
validated value unchanged (and records no error) on success, and on a
validator failure registers exactly one diagnostic - at the supplied
location, with the exception's message - and returns the exception's `use`
fallback instead of propagating, so parsing can continue. -/
theorem parse_annot_fallback (pm : ParserState) (p symbol : String) :
    (∀ v : Bool, parse_boolean_annot (Except.ok v) pm p symbol = (v, pm)) ∧
    (∀ e : InvalidAnnot Bool, parse_boolean_annot (Except.error e) pm p symbol =
      (e.use, ⟨pm.errors ++ [(p, symbol, e.message)]⟩)) ∧
    (∀ v : Int, parse_integer_annot (Except.ok v) pm p symbol = (v, pm)) ∧
    (∀ e : InvalidAnnot Int, parse_integer_annot (Except.error e) pm p symbol =
      (e.use, ⟨pm.errors ++ [(p, symbol, e.message)]⟩)) ∧
    (∀ v : String, parse_string_annot (Except.ok v) pm p symbol = (v, pm)) ∧
    (∀ e : InvalidAnnot String, parse_string_annot (Except.error e) pm p symbol =
      (e.use, ⟨pm.errors ++ [(p, symbol, e.message)]⟩)) ∧
    (∀ v : List String, parse_string_list_annot (Except.ok v) pm p symbol = (v, pm)) ∧
    (∀ e : InvalidAnnot (List String), parse_string_list_annot (Except.error e) pm p symbol =
      (e.use, ⟨pm.errors ++ [(p, symbol, e.message)]⟩)) := by
  refine ⟨fun v => rfl, fun e => rfl, fun v => rfl, fun e => rfl,
    fun v => rfl, fun e => rfl, fun v => rfl, fun e => rfl⟩

/-- The string-like argument kinds of `_argument_variable`'s first
adjustment branch. -/
def is_string_kind (t : ArgumentType) : Bool :=
  t = ArgumentType.ascii_string ∨ t = ArgumentType.latin1_string ∨
  t = ArgumentType.utf8_string ∨ t = ArgumentType.sstring ∨
  t = ArgumentType.ustring ∨ t = ArgumentType.string_ ∨ t = ArgumentType.wstring

/-- The type adjustment of `_argument_variable` (`argument_parser.py`, lines
inside the save/restore bracket): reduce the pointer depth to what the parsed
value really uses, turn array-size values into `Py_ssize_t`, drop the
reference and drop constness for non-pointer values. -/
def adjust_argument (arg : Argument) : Argument :=
  let nr_derefs := arg.derefs.length
  let a1 :=
    if is_string_kind arg.type then
      if arg.is_reference = false then
        if nr_derefs = 2 then { arg with derefs := arg.derefs.take 1 }
        else if nr_derefs = 1 ∧ arg.is_out = true then { arg with derefs := [] }
        else arg
      else arg
    else if arg.type = ArgumentType.class_ ∨ arg.type = ArgumentType.mapped ∨
        arg.type = ArgumentType.struct_ ∨ arg.type = ArgumentType.union_ ∨
        arg.type = ArgumentType.void_ then
      { arg with derefs := [arg.derefs.headD false] }
    else
      { arg with derefs := [] }
  let a2 := if a1.array = ArrayArgument.array_size then { a1 with type := ArgumentType.ssize } else a1
  let a3 := { a2 with is_reference := false }
  if a3.derefs.length = 0 then { a3 with is_const := false } else a3

/-- `_argument_variable` of `argument_parser.py`: generate the definition of
an argument variable.  The formatters `fmt_argument_as_cpp_type` (passed as
`fmt`), `fmt_argument_as_name` (passed as `name`) and
`fmt_value_list_as_cpp_expression` (already folded into
`Argument.default_value`) are not among the provided sources.  The function
saves the `derefs`, `type`, `is_reference` and `is_const` fields, formats the
adjusted type, then restores the saved fields before generating any default
value; the emitted lines and the final state of the argument are returned. -/
def argument_variable (fmt : Argument → String) (name : String) (arg : Argument) :
    Argument × List String :=
  let nr_derefs := arg.derefs.length
  let pre :=
    if arg.is_in = true ∧ arg.default_value ≠ none ∧
        (arg.type = ArgumentType.class_ ∨ arg.type = ArgumentType.mapped) ∧
        (nr_derefs = 0 ∨ arg.is_reference = true) then
      ["        " ++ fmt arg ++ " " ++ name ++ "def = " ++ arg.default_value.getD "" ++ ";\n"]
    else []
  let saved_derefs := arg.derefs
  let saved_type := arg.type
  let saved_is_reference := arg.is_reference
  let saved_is_const := arg.is_const
  let adjusted := adjust_argument arg
  let decl := "        " ++ fmt adjusted ++ " " ++ name
  let restored :=
    { adjusted with
        derefs := saved_derefs
        type := saved_type
        is_reference := saved_is_reference
        is_const := saved_is_const }
  let defaultSuffix :=
    if restored.is_in = true ∧ restored.default_value ≠ none then
      if (restored.type = ArgumentType.class_ ∨ restored.type = ArgumentType.mapped) ∧
          (nr_derefs = 0 ∨ restored.is_reference = true) then
        " = &" ++ name ++ "def"
      else
        " = " ++ restored.default_value.getD ""
    else ""
  (restored, pre ++ [decl ++ defaultSuffix ++ ";\n"])

/-- C10: `_argument_variable` restores the `derefs`, `type`, `is_reference`
and `is_const` fields it temporarily modifies, so the argument it returns is
exactly the argument it was given - generating the variable declaration
leaves the specification tree's `Argument` unchanged. -/
theorem argument_variable_restores (fmt : Argument → String) (name : String)
    (arg : Argument) : (argument_variable fmt name arg).1 = arg := by
  rcases arg with ⟨ty, derefs, isref, isconst, isin, isout, tr, arr, dv, nm, gw, key,
    dn, an, ic, defn, pct⟩
  simp only [argument_variable, adjust_argument]
  split_ifs <;> rfl
